import Mathlib

/-!
Shallow embedding of `src/load-assignment/script.js`.

The source file contains two `DOMContentLoaded` handler variants of the same
upload widget.  The first variant deduplicates selected files on the
`(name, size)` key, supports per-entry removal, and interprets the upload
response via `res.text()` plus `JSON.parse`, throwing `HTTP <status>: <body>`
on a non-2xx status.  The second variant appends all files unconditionally,
performs no empty-selection check, and parses via `response.json()`.

Platform primitives (the `File` object, `fetch`, `JSON.parse`) are modelled
explicitly: a file is a record with an identity tag standing for JS reference
identity; a network interaction either fails in transport or delivers a
status code plus a body; a body carries its raw text together with the result
of `JSON.parse` on that text (`none` when parsing would throw a
`SyntaxError`; every engine's `SyntaxError` message contains the substring
"JSON", which is exactly what the first variant's catch block tests for).
-/

namespace Ledger

/-- A JS `File` object: `id` models reference identity (two distinct `File`
objects have distinct `id`s even when `name` and `size` coincide). -/
structure JsFile where
  id : Nat
  name : String
  size : Nat
deriving DecidableEq

/-- The dedup comparison from variant 1:
`f.name === file.name && f.size === file.size`. -/
def sameKey (a b : JsFile) : Bool :=
  a.name == b.name && a.size == b.size

/-- The dedup membership test from variant 1:
`selectedFiles.some(f => f.name === file.name && f.size === file.size)`. -/
def hasKey (sel : List JsFile) (file : JsFile) : Bool :=
  sel.any (fun f => sameKey f file)

/-- One iteration of variant 1's `handleFiles` loop body: skip a candidate
whose key is already present, otherwise push it at the end. -/
def addOne (sel : List JsFile) (file : JsFile) : List JsFile :=
  if hasKey sel file then sel else sel ++ [file]

/-- Variant 1 `handleFiles` (script.js lines 29-45): the loop runs `addOne`
over the candidates against the continually updated selection. -/
def handleFiles (sel : List JsFile) (fileList : List JsFile) : List JsFile :=
  fileList.foldl addOne sel

/-- The remove button's onclick in variant 1 (script.js lines 39-42):
`selectedFiles = selectedFiles.filter(f => f !== file)`. -/
def removeFile (sel : List JsFile) (file : JsFile) : List JsFile :=
  sel.filter (fun f => !(f == file))

/-- Modelled from the spec: removal by dedup key rather than by reference,
filtering out all entries whose `(name, size)` equals the argument's.  This
operation is not in the source; it is the comparison point of the
refinement claim. -/
def specRemoveByKey (sel : List JsFile) (file : JsFile) : List JsFile :=
  sel.filter (fun f => !(sameKey f file))

/-- Modelled from the spec: first-seen entry is retained and order of first
appearance is preserved — keep each candidate and drop every later candidate
sharing its key. -/
def keepFirst : List JsFile → List JsFile
  | [] => []
  | f :: rest => f :: keepFirst (rest.filter (fun g => !(sameKey g f)))
termination_by l => l.length
decreasing_by
  simp only [List.length_cons]
  exact Nat.lt_succ_of_le (List.length_filter_le _ _)

/-- Variant 2 `handleFiles` (script.js lines 124-131): every file is pushed,
with no dedup check. -/
def handleFiles2 (sel : List JsFile) (files : List JsFile) : List JsFile :=
  files.foldl (fun acc file => acc ++ [file]) sel

/-- Invariant: no two selection entries share a `(name, size)` key. -/
def KeysDistinct (sel : List JsFile) : Prop :=
  List.Pairwise (fun a b => sameKey a b = false) sel

/-- Selection states reachable through variant 1's mutations, starting from
the empty selection created at `DOMContentLoaded`. -/
inductive Reachable : List JsFile → Prop where
  | init : Reachable []
  | add {sel fileList} : Reachable sel → Reachable (handleFiles sel fileList)
  | rem {sel file} : Reachable sel → Reachable (removeFile sel file)

/-- The parsed shape the handlers read from the response: `data.status` and
`data.message`; `none` models a missing (undefined) field. -/
structure JsonData where
  status : Option String
  message : Option String
deriving DecidableEq

/-- A response body: the raw text (as read by `res.text()`) together with the
result of `JSON.parse` on that text (`none` when parsing throws). -/
structure Body where
  text : String
  parsed : Option JsonData
deriving DecidableEq

/-- Outcome of the single awaited `fetch`: either the promise rejects with a
transport error message, or a response arrives with a status code and a
body. -/
inductive NetResult where
  | fail (msg : String)
  | resp (status : Nat) (body : Body)
deriving DecidableEq

/-- Errors that can be thrown inside a submit handler's try block: a fetch
rejection (transport), the explicit `throw new Error` on a non-2xx status,
or a `SyntaxError` from `JSON.parse`. -/
inductive JsErr where
  | fetchFail (msg : String)
  | httpErr (msg : String)
  | parseErr (msg : String)
deriving DecidableEq

/-- The `message` property the catch blocks read from a thrown error. -/
def JsErr.message : JsErr → String
  | .fetchFail m => m
  | .httpErr m => m
  | .parseErr m => m

/-- Char-list anchored match used by the substring search below. -/
def matchesAt : List Char → List Char → Bool
  | [], _ => true
  | _ :: _, [] => false
  | a :: as, b :: bs => a == b && matchesAt as bs

/-- Substring search over char lists. -/
def subSearch (needle : List Char) : List Char → Bool
  | [] => matchesAt needle []
  | c :: cs => matchesAt needle (c :: cs) || subSearch needle cs

/-- JS `haystack.includes(needle)`. -/
def hasSubstr (needle haystack : String) : Bool :=
  subSearch needle.toList haystack.toList

/-- JS falsy-default `m || dflt` on an optional string: `undefined` and the
empty string are falsy. -/
def jsOrDefault (m : Option String) (dflt : String) : String :=
  match m with
  | none => dflt
  | some s => if s == "" then dflt else s

/-- JS `res.ok`: status in the 200-299 range. -/
def resOk (status : Nat) : Bool :=
  200 ≤ status && status ≤ 299

/-- Stand-in for the engine's `SyntaxError` message thrown by `JSON.parse`;
every engine's message contains the substring "JSON". -/
def jsonParseErrMsg : String := "Unexpected token in JSON"

/-- The catch block's message selection (script.js line 90):
`err.message.includes('JSON') ? 'Server response invalid' : err.message`. -/
def catchMessage (msg : String) : String :=
  if hasSubstr "JSON" msg then "Server response invalid" else msg

/-- Spec outcome taxonomy; in the code both server and transport failures
render with class "error", so the constructor records the path taken. -/
inductive Outcome where
  | userError (msg : String)
  | success
  | serverError (msg : String)
  | transportError (msg : String)
deriving DecidableEq

/-- Observable result of one variant-1 submit: status line, selection state
afterwards, and which effects happened. -/
structure SubmitResult where
  outcome : Outcome
  statusText : String
  statusClass : String
  selectionAfter : List JsFile
  listCleared : Bool
  formReset : Bool
  fetchIssued : Bool
  parseAttempted : Bool
deriving DecidableEq

/-- The try block of variant 1's submit handler (script.js lines 61-87):
await the fetch (a rejection is a thrown transport error), read the body
text, throw `HTTP <status>: <text>` when `!res.ok`, run `JSON.parse` (a
failure is a thrown `SyntaxError`), then branch on
`data.status === 'success'`. -/
def tryBlock (sel : List JsFile) (net : NetResult) : Except JsErr SubmitResult :=
  match net with
  | .fail msg => .error (.fetchFail msg)
  | .resp st body =>
    if !resOk st then
      .error (.httpErr ("HTTP " ++ toString st ++ ": " ++ body.text))
    else
      match body.parsed with
      | none => .error (.parseErr jsonParseErrMsg)
      | some data =>
        if data.status == some "success" then
          .ok { outcome := .success, statusText := "Upload successful!",
                statusClass := "success", selectionAfter := [],
                listCleared := true, formReset := true,
                fetchIssued := true, parseAttempted := true }
        else
          .ok { outcome := .serverError (jsOrDefault data.message "Upload failed"),
                statusText := jsOrDefault data.message "Upload failed",
                statusClass := "error", selectionAfter := sel,
                listCleared := false, formReset := false,
                fetchIssued := true, parseAttempted := true }

/-- The catch block of variant 1's submit handler (script.js lines 88-92). -/
def catchBlock (sel : List JsFile) (e : JsErr) : SubmitResult :=
  { outcome :=
      match e with
      | .fetchFail _ => .transportError (catchMessage e.message)
      | _ => .serverError (catchMessage e.message),
    statusText := catchMessage e.message,
    statusClass := "error",
    selectionAfter := sel,
    listCleared := false, formReset := false,
    fetchIssued := true,
    parseAttempted := match e with | .parseErr _ => true | _ => false }

/-- Variant 1's submit handler (script.js lines 47-93): the empty-selection
guard, then the try/catch around the single fetch. -/
def submitHandler (sel : List JsFile) (net : NetResult) : SubmitResult :=
  if sel.isEmpty then
    { outcome := .userError "Select at least one file",
      statusText := "Select at least one file", statusClass := "error",
      selectionAfter := sel, listCleared := false, formReset := false,
      fetchIssued := false, parseAttempted := false }
  else
    match tryBlock sel net with
    | .ok r => r
    | .error e => catchBlock sel e

/-- Observable result of one variant-2 submit: the alert text shown and the
state effects. -/
structure SubmitResult2 where
  alertMsg : String
  alerted : Bool
  selectionAfter : List JsFile
  listCleared : Bool
  formReset : Bool
  fetchIssued : Bool
deriving DecidableEq

/-- The try block of variant 2's submit handler (script.js lines 144-160):
no empty-selection guard, `response.json()` parses the body regardless of
the status code, then branch on `data.status === 'success'`.  The template
literals in the source lack `$`, so the alert texts contain the expressions
literally. -/
def tryBlock2 (sel : List JsFile) (net : NetResult) : Except JsErr SubmitResult2 :=
  match net with
  | .fail msg => .error (.fetchFail msg)
  | .resp _ body =>
    match body.parsed with
    | none => .error (.parseErr jsonParseErrMsg)
    | some data =>
      if data.status == some "success" then
        .ok { alertMsg := "Study materials uploaded successfully!",
              alerted := true, selectionAfter := [],
              listCleared := true, formReset := true, fetchIssued := true }
      else
        .ok { alertMsg := "Error: \x7bdata.message || \x27Upload failed\x27\x7d",
              alerted := true, selectionAfter := sel,
              listCleared := false, formReset := false, fetchIssued := true }

/-- Variant 2's submit handler (script.js lines 133-164). -/
def submitHandler2 (sel : List JsFile) (net : NetResult) : SubmitResult2 :=
  match tryBlock2 sel net with
  | .ok r => r
  | .error _ =>
    { alertMsg := "Error: \x7berr.message\x7d", alerted := true,
      selectionAfter := sel, listCleared := false, formReset := false,
      fetchIssued := true }

/-! Helper lemmas about the dedup key and the selection store. -/

theorem sameKey_refl (a : JsFile) : sameKey a a = true := by
  simp [sameKey]

theorem sameKey_symm (a b : JsFile) : sameKey a b = sameKey b a := by
  rw [Bool.eq_iff_iff]
  simp only [sameKey, Bool.and_eq_true, beq_iff_eq]
  constructor <;> rintro ⟨h1, h2⟩ <;> exact ⟨h1.symm, h2.symm⟩

theorem sameKey_trans {a b c : JsFile} (h1 : sameKey a b = true)
    (h2 : sameKey b c = true) : sameKey a c = true := by
  simp only [sameKey, Bool.and_eq_true, beq_iff_eq] at h1 h2 ⊢
  exact ⟨h1.1.trans h2.1, h1.2.trans h2.2⟩

theorem hasKey_eq_false {sel : List JsFile} {file : JsFile} :
    hasKey sel file = false ↔ ∀ g ∈ sel, sameKey g file = false := by
  simp [hasKey, List.any_eq_false]

theorem hasKey_append (l1 l2 : List JsFile) (file : JsFile) :
    hasKey (l1 ++ l2) file = (hasKey l1 file || hasKey l2 file) := by
  simp [hasKey, List.any_append]

theorem hasKey_singleton (f x : JsFile) : hasKey [f] x = sameKey x f := by
  simp only [hasKey, List.any_cons, List.any_nil, Bool.or_false]
  exact sameKey_symm f x

theorem addOne_keysDistinct {sel : List JsFile} {file : JsFile}
    (h : KeysDistinct sel) : KeysDistinct (addOne sel file) := by
  rw [addOne]
  cases hk : hasKey sel file with
  | true => simpa using h
  | false =>
    simp only [Bool.false_eq_true, if_false]
    rw [KeysDistinct, List.pairwise_append]
    refine ⟨h, List.pairwise_singleton _ _, ?_⟩
    intro a ha b hb
    rw [List.mem_singleton] at hb
    subst hb
    exact hasKey_eq_false.mp hk a ha

theorem foldl_addOne_keysDistinct (l : List JsFile) :
    ∀ acc, KeysDistinct acc → KeysDistinct (List.foldl addOne acc l) := by
  induction l with
  | nil => intro acc h; simpa using h
  | cons f fs ih =>
    intro acc h
    rw [List.foldl_cons]
    exact ih _ (addOne_keysDistinct h)

theorem keepFirst_nil : keepFirst [] = [] := by
  rw [keepFirst]

theorem keepFirst_cons (f : JsFile) (rest : List JsFile) :
    keepFirst (f :: rest) = f :: keepFirst (rest.filter (fun g => !(sameKey g f))) := by
  rw [keepFirst]

theorem foldl_addOne_eq_keepFirst (l : List JsFile) :
    ∀ acc, List.foldl addOne acc l =
      acc ++ keepFirst (l.filter (fun g => !(hasKey acc g))) := by
  induction l with
  | nil => intro acc; simp [keepFirst_nil]
  | cons f fs ih =>
    intro acc
    rw [List.foldl_cons]
    cases hk : hasKey acc f with
    | true =>
      have h1 : addOne acc f = acc := by simp [addOne, hk]
      rw [h1, ih acc]
      have hfc : (f :: fs).filter (fun g => !(hasKey acc g)) =
          fs.filter (fun g => !(hasKey acc g)) := by
        simp [List.filter_cons, hk]
      rw [hfc]
    | false =>
      have h1 : addOne acc f = acc ++ [f] := by simp [addOne, hk]
      rw [h1, ih (acc ++ [f]), List.append_assoc, List.singleton_append]
      have hfc : (f :: fs).filter (fun g => !(hasKey acc g)) =
          f :: fs.filter (fun g => !(hasKey acc g)) := by
        simp [List.filter_cons, hk]
      rw [hfc, keepFirst_cons, List.filter_filter]
      have hpt : fs.filter (fun g => !(hasKey (acc ++ [f]) g)) =
          fs.filter (fun a => (!(sameKey a f) && !(hasKey acc a))) := by
        apply List.filter_congr
        intro x _
        rw [hasKey_append, Bool.not_or, hasKey_singleton, Bool.and_comm]
      rw [hpt]

theorem handleFiles_keysDistinct {sel : List JsFile} {fileList : List JsFile}
    (h : KeysDistinct sel) : KeysDistinct (handleFiles sel fileList) :=
  foldl_addOne_keysDistinct fileList sel h

theorem reachable_keysDistinct {sel : List JsFile} (h : Reachable sel) :
    KeysDistinct sel := by
  induction h with
  | init => exact List.Pairwise.nil
  | add _ ih => exact handleFiles_keysDistinct ih
  | rem _ ih => exact List.Pairwise.sublist (List.filter_sublist _) ih

theorem mem_keysDistinct_eq {sel : List JsFile} {f g : JsFile}
    (hd : KeysDistinct sel) (hf : f ∈ sel) (hg : g ∈ sel)
    (hkey : sameKey g f = true) : g = f := by
  by_contra hne
  have hd' : List.Pairwise (fun a b : JsFile => sameKey a b = false) sel := hd
  have hsym : Symmetric (fun a b : JsFile => sameKey a b = false) := by
    intro a b h
    rw [sameKey_symm]; exact h
  have hfalse := hd'.forall hsym hg hf hne
  rw [hfalse] at hkey
  cases hkey

theorem foldl_handleFiles_eq_flatten (batches : List (List JsFile))
    (sel : List JsFile) :
    List.foldl handleFiles sel batches = List.foldl addOne sel batches.flatten := by
  rw [List.foldl_flatten]
  rfl

/-! Theorems for the claims about the selection store. -/

/-- C1 (amended): in the first source variant, any sequence of `handleFiles`
calls starting from the empty selection yields a selection with no two
entries sharing a `(name, size)` key, equal to the first-seen dedup of the
concatenated candidate stream (first-seen wins, order of first appearance
preserved).  The second variant's `handleFiles` appends unconditionally and
does not satisfy this. -/
theorem addFiles_dedup_first_seen (batches : List (List JsFile)) :
    KeysDistinct (List.foldl handleFiles [] batches) ∧
      List.foldl handleFiles [] batches = keepFirst batches.flatten := by
  constructor
  · rw [foldl_handleFiles_eq_flatten]
    exact foldl_addOne_keysDistinct _ [] List.Pairwise.nil
  · rw [foldl_handleFiles_eq_flatten, foldl_addOne_eq_keepFirst]
    rw [show (fun g : JsFile => !(hasKey [] g)) = (fun _ => true) from rfl]
    rw [List.filter_true, List.nil_append]

/-- C1 counterexample: the second variant's `handleFiles` (script.js lines
124-131) inserts two files with equal `(name, size)` keys, so the claim that
every sequence of addFiles calls leaves the selection duplicate-free fails on
that variant. -/
theorem addFiles2_duplicate_key :
    handleFiles2 [] [⟨0, "a.txt", 10⟩, ⟨1, "a.txt", 10⟩] =
        [⟨0, "a.txt", 10⟩, ⟨1, "a.txt", 10⟩] ∧
      sameKey ⟨0, "a.txt", 10⟩ ⟨1, "a.txt", 10⟩ = true ∧
      ¬ KeysDistinct (handleFiles2 [] [⟨0, "a.txt", 10⟩, ⟨1, "a.txt", 10⟩]) := by
  refine ⟨rfl, by decide, ?_⟩
  simp only [KeysDistinct]
  decide

/-- C8: removing a selected file by reference clears its dedup key, so a file
with the same `(name, size)` is accepted by the next `handleFiles` call. -/
theorem remove_then_readd {sel : List JsFile} {f f' : JsFile}
    (hr : Reachable sel) (hf : f ∈ sel) (hkey : sameKey f' f = true) :
    f' ∈ handleFiles (removeFile sel f) [f'] := by
  have hd := reachable_keysDistinct hr
  have hnk : hasKey (removeFile sel f) f' = false := by
    rw [hasKey_eq_false]
    intro g hg
    cases hgk : sameKey g f' with
    | false => rfl
    | true =>
      exfalso
      have hgf : sameKey g f = true := sameKey_trans hgk hkey
      have hgmem : g ∈ sel := List.mem_of_mem_filter hg
      have hgeq : g = f := mem_keysDistinct_eq hd hf hgmem hgf
      subst hgeq
      have hsurv := (List.mem_filter.mp hg).2
      simp at hsurv
  have hstep : handleFiles (removeFile sel f) [f'] = removeFile sel f ++ [f'] := by
    simp [handleFiles, addOne, hnk]
  rw [hstep]
  exact List.mem_append_right _ (List.mem_singleton_self _)

/-- C8 witness: a concrete removal and re-add with a fresh handle sharing the
removed file's key. -/
theorem remove_then_readd_witness :
    (⟨1, "a.txt", 10⟩ : JsFile) ∈
      handleFiles (removeFile (handleFiles [] [⟨0, "a.txt", 10⟩]) ⟨0, "a.txt", 10⟩)
        [⟨1, "a.txt", 10⟩] :=
  remove_then_readd (Reachable.add Reachable.init) (by decide) (by decide)

/-- C10: on reachable selections of the first variant, removal by reference
identity agrees with removal by `(name, size)` dedup key for any contained
file, because the selection never holds two entries with the same key. -/
theorem remove_ref_eq_remove_key {sel : List JsFile} {f : JsFile}
    (hr : Reachable sel) (hf : f ∈ sel) :
    removeFile sel f = specRemoveByKey sel f := by
  have hd := reachable_keysDistinct hr
  rw [removeFile, specRemoveByKey]
  apply List.filter_congr
  intro g hg
  congr 1
  cases hkey : sameKey g f with
  | false =>
    have hne : g ≠ f := by
      intro he
      subst he
      rw [sameKey_refl] at hkey
      cases hkey
    exact beq_eq_false_iff_ne.mpr hne
  | true =>
    have hgeq : g = f := mem_keysDistinct_eq hd hf hg hkey
    subst hgeq
    exact beq_self_eq_true g

/-- C10 witness: a concrete two-entry reachable selection on which the two
removal policies coincide. -/
theorem remove_ref_eq_remove_key_witness :
    removeFile (handleFiles [] [⟨0, "a.txt", 10⟩, ⟨1, "b.txt", 20⟩]) ⟨0, "a.txt", 10⟩ =
      specRemoveByKey (handleFiles [] [⟨0, "a.txt", 10⟩, ⟨1, "b.txt", 20⟩])
        ⟨0, "a.txt", 10⟩ :=
  remove_ref_eq_remove_key (Reachable.add Reachable.init) (by decide)

/-! Theorems for the claims about the submission controller. -/

theorem isEmpty_eq_false_of_ne_nil {sel : List JsFile} (h : sel ≠ []) :
    sel.isEmpty = false := by
  cases sel with
  | nil => exact absurd rfl h
  | cons a l => rfl

/-- C2 (amended): in the first source variant, submitting with an empty
selection sets the UserError message "Select at least one file", issues no
fetch and leaves the selection empty; the second variant has no such guard
and fetches even with an empty selection. -/
theorem submit_empty_selection (net : NetResult) :
    submitHandler [] net =
      { outcome := .userError "Select at least one file",
        statusText := "Select at least one file", statusClass := "error",
        selectionAfter := [], listCleared := false, formReset := false,
        fetchIssued := false, parseAttempted := false } := rfl

/-- C2 counterexample: the second variant's submit handler (script.js lines
133-164) issues the network request even when the selection is empty and
shows no user error, so the claim fails on that variant. -/
theorem submit2_empty_selection_fetches :
    (submitHandler2 [] (NetResult.resp 200
        ⟨"\x7b\"status\":\"success\"\x7d", some ⟨some "success", none⟩⟩)).fetchIssued
        = true ∧
      (submitHandler2 [] (NetResult.resp 200
          ⟨"\x7b\"status\":\"success\"\x7d", some ⟨some "success", none⟩⟩)).alertMsg
        = "Study materials uploaded successfully!" := ⟨rfl, rfl⟩

/-- C3: a 2xx response whose body parses with status field "success" yields
the Success outcome, empties the selection, clears the rendered list and
resets the form fields — in both source variants. -/
theorem submit_success_clears {sel : List JsFile} {st : Nat} {body : Body}
    {d : JsonData} (hne : sel ≠ []) (hok : resOk st = true)
    (hp : body.parsed = some d) (hs : d.status = some "success") :
    (submitHandler sel (.resp st body)).outcome = .success ∧
      (submitHandler sel (.resp st body)).statusText = "Upload successful!" ∧
      (submitHandler sel (.resp st body)).statusClass = "success" ∧
      (submitHandler sel (.resp st body)).selectionAfter = [] ∧
      (submitHandler sel (.resp st body)).listCleared = true ∧
      (submitHandler sel (.resp st body)).formReset = true ∧
      (submitHandler2 sel (.resp st body)).selectionAfter = [] ∧
      (submitHandler2 sel (.resp st body)).listCleared = true ∧
      (submitHandler2 sel (.resp st body)).formReset = true := by
  have hempty := isEmpty_eq_false_of_ne_nil hne
  have hbeq : (d.status == some "success") = true := by rw [hs]; decide
  simp [submitHandler, tryBlock, submitHandler2, tryBlock2, hempty, hok, hp, hbeq]

/-- C3 witness: a concrete successful submit at a 200 response. -/
theorem submit_success_clears_witness :
    resOk 200 = true ∧
      (submitHandler [⟨0, "a.txt", 10⟩] (.resp 200
          ⟨"\x7b\"status\":\"success\"\x7d", some ⟨some "success", none⟩⟩)).selectionAfter
        = [] :=
  ⟨by decide, (submit_success_clears (by decide) (by decide) rfl rfl).2.2.2.1⟩

/-- C4 (amended): for every non-2xx response the body is never parsed
(`throw` precedes `JSON.parse`); the outcome is ServerError with the generic
`HTTP <status>: <body>` text run through the catch block's rewriting, which
substitutes "Server response invalid" when that text contains "JSON"; a
parsed message field is never consulted. -/
theorem submit_non2xx_generic {sel : List JsFile} {st : Nat} {body : Body}
    (hne : sel ≠ []) (hbad : resOk st = false) :
    (submitHandler sel (.resp st body)).outcome =
        .serverError (catchMessage ("HTTP " ++ toString st ++ ": " ++ body.text)) ∧
      (submitHandler sel (.resp st body)).statusText =
        catchMessage ("HTTP " ++ toString st ++ ": " ++ body.text) ∧
      (submitHandler sel (.resp st body)).parseAttempted = false ∧
      (submitHandler sel (.resp st body)).selectionAfter = sel := by
  have hempty := isEmpty_eq_false_of_ne_nil hne
  simp [submitHandler, tryBlock, catchBlock, JsErr.message, hempty, hbad]

/-- C4 witness: a concrete 404 response is answered with the generic message
and without parsing. -/
theorem submit_non2xx_generic_witness :
    resOk 404 = false ∧
      (submitHandler [⟨0, "a.txt", 10⟩] (.resp 404 ⟨"nope", none⟩)).parseAttempted
        = false :=
  ⟨by decide, (submit_non2xx_generic (by decide) (by decide)).2.2.1⟩

/-- C4 counterexample: a 400 response whose body parses to a structure with
message "bad" is still reported with the generic `HTTP 400: <body>` text —
the parsed message is not carried, contradicting the claim. -/
theorem submit_non2xx_ignores_parsed_message :
    (submitHandler [⟨0, "a.txt", 10⟩] (.resp 400
        ⟨"\x7b\"status\":\"error\",\"message\":\"bad\"\x7d",
         some ⟨some "error", some "bad"⟩⟩)).statusText =
      "HTTP 400: \x7b\"status\":\"error\",\"message\":\"bad\"\x7d" ∧
      (submitHandler [⟨0, "a.txt", 10⟩] (.resp 400
          ⟨"\x7b\"status\":\"error\",\"message\":\"bad\"\x7d",
           some ⟨some "error", some "bad"⟩⟩)).outcome ≠ Outcome.serverError "bad" :=
  ⟨by decide, by decide⟩

/-- C5 (amended): for a status-500 response whose body is unparseable, the
body is indeed never parsed (no structured field is referenced), but the
outcome is ServerError with the generic `HTTP 500: <body>` text (rewritten to
"Server response invalid" only when that text contains "JSON"), not the
invalid-response message the claim states. -/
theorem submit_500_unparseable {sel : List JsFile} {body : Body}
    (hne : sel ≠ []) (_hp : body.parsed = none) :
    (submitHandler sel (.resp 500 body)).outcome =
        .serverError (catchMessage ("HTTP " ++ toString (500 : Nat) ++ ": " ++ body.text)) ∧
      (submitHandler sel (.resp 500 body)).parseAttempted = false ∧
      (submitHandler sel (.resp 500 body)).selectionAfter = sel := by
  have hempty := isEmpty_eq_false_of_ne_nil hne
  have hbad : resOk 500 = false := by decide
  simp [submitHandler, tryBlock, catchBlock, JsErr.message, hempty, hbad]

/-- C5 witness: a concrete unparseable 500 body is not parsed. -/
theorem submit_500_unparseable_witness :
    (⟨"oops", none⟩ : Body).parsed = none ∧
      (submitHandler [⟨0, "a.txt", 10⟩] (.resp 500 ⟨"oops", none⟩)).parseAttempted
        = false :=
  ⟨rfl, (submit_500_unparseable (by decide) rfl).2.1⟩

/-- C5 counterexample: a 500 response with the non-JSON body "Internal Server
Error" is reported as "HTTP 500: Internal Server Error", not as the generic
invalid-response message the claim states. -/
theorem submit_500_generic_not_invalid :
    (submitHandler [⟨0, "a.txt", 10⟩]
        (.resp 500 ⟨"Internal Server Error", none⟩)).statusText =
      "HTTP 500: Internal Server Error" ∧
      (submitHandler [⟨0, "a.txt", 10⟩]
          (.resp 500 ⟨"Internal Server Error", none⟩)).statusText ≠
        "Server response invalid" :=
  ⟨by decide, by decide⟩

/-- C6: a 200 response with body status "error" and message "too large"
yields ServerError "too large" and leaves the selection and its rendered
list untouched, so the user can retry without re-picking files. -/
theorem submit_error_payload_keeps_selection {sel : List JsFile} {body : Body}
    (hne : sel ≠ [])
    (hp : body.parsed = some ⟨some "error", some "too large"⟩) :
    (submitHandler sel (.resp 200 body)).outcome = .serverError "too large" ∧
      (submitHandler sel (.resp 200 body)).statusText = "too large" ∧
      (submitHandler sel (.resp 200 body)).statusClass = "error" ∧
      (submitHandler sel (.resp 200 body)).selectionAfter = sel ∧
      (submitHandler sel (.resp 200 body)).listCleared = false ∧
      (submitHandler sel (.resp 200 body)).formReset = false := by
  have hempty := isEmpty_eq_false_of_ne_nil hne
  have hok : resOk 200 = true := by decide
  have hbeq : ((some "error" : Option String) == some "success") = false := by decide
  have hmsg : jsOrDefault (some "too large") "Upload failed" = "too large" := by decide
  simp [submitHandler, tryBlock, hempty, hok, hp, hbeq, hmsg]

/-- C6 witness: a concrete oversized-upload rejection keeps the selection. -/
theorem submit_error_payload_keeps_selection_witness :
    ([⟨0, "a.txt", 10⟩] : List JsFile) ≠ [] ∧
      (submitHandler [⟨0, "a.txt", 10⟩] (.resp 200
          ⟨"\x7b\"status\":\"error\",\"message\":\"too large\"\x7d",
           some ⟨some "error", some "too large"⟩⟩)).selectionAfter = [⟨0, "a.txt", 10⟩] :=
  ⟨by decide, (submit_error_payload_keeps_selection (by decide) rfl).2.2.2.1⟩

/-- C7 (amended): on transport failure the outcome is TransportError, the
selection is unchanged and no body parsing is attempted; the carried message
is the failure message unless it contains the substring "JSON", in which
case the catch block substitutes "Server response invalid". -/
theorem submit_transport_failure {sel : List JsFile} {msg : String}
    (hne : sel ≠ []) :
    (submitHandler sel (.fail msg)).outcome = .transportError (catchMessage msg) ∧
      (submitHandler sel (.fail msg)).statusText = catchMessage msg ∧
      (submitHandler sel (.fail msg)).selectionAfter = sel ∧
      (submitHandler sel (.fail msg)).parseAttempted = false ∧
      (submitHandler sel (.fail msg)).listCleared = false := by
  have hempty := isEmpty_eq_false_of_ne_nil hne
  simp [submitHandler, tryBlock, catchBlock, JsErr.message, hempty]

/-- C7 witness: a concrete rejected fetch is reported as a transport error
carrying its message. -/
theorem submit_transport_failure_witness :
    ([⟨0, "a.txt", 10⟩] : List JsFile) ≠ [] ∧
      (submitHandler [⟨0, "a.txt", 10⟩] (.fail "Failed to fetch")).outcome =
        Outcome.transportError "Failed to fetch" :=
  ⟨by decide, by
    have h := (@submit_transport_failure [⟨0, "a.txt", 10⟩] "Failed to fetch"
        (by decide)).1
    rw [h]
    decide⟩

/-- C7 counterexample: a transport failure whose message contains "JSON" is
not carried through; the catch block rewrites it to "Server response
invalid", contradicting the claim that the outcome carries the failure
message. -/
theorem submit_transport_json_message_rewritten :
    (submitHandler [⟨0, "a.txt", 10⟩] (.fail "JSON stream aborted")).statusText =
        "Server response invalid" ∧
      (submitHandler [⟨0, "a.txt", 10⟩] (.fail "JSON stream aborted")).statusText ≠
        "JSON stream aborted" ∧
      (submitHandler [⟨0, "a.txt", 10⟩] (.fail "JSON stream aborted")).outcome ≠
        Outcome.transportError "JSON stream aborted" :=
  ⟨by decide, by decide, by decide⟩

theorem tryBlock_ok_class {sel : List JsFile} {net : NetResult} {r : SubmitResult}
    (h : tryBlock sel net = Except.ok r) :
    r.statusClass = "error" ∨ r.statusClass = "success" := by
  cases net with
  | fail msg => simp [tryBlock] at h
  | resp st body =>
    simp only [tryBlock] at h
    by_cases h1 : (!resOk st) = true
    · rw [if_pos h1] at h
      simp at h
    · rw [if_neg h1] at h
      cases hp : body.parsed with
      | none =>
        simp only [hp] at h
        simp at h
      | some d =>
        simp only [hp] at h
        by_cases h2 : (d.status == some "success") = true
        · rw [if_pos h2] at h
          have h3 := (Except.ok.inj h).symm
          subst h3
          right; rfl
        · rw [if_neg h2] at h
          have h3 := (Except.ok.inj h).symm
          subst h3
          left; rfl

theorem tryBlock2_ok_alerted {sel : List JsFile} {net : NetResult}
    {r : SubmitResult2} (h : tryBlock2 sel net = Except.ok r) : r.alerted = true := by
  cases net with
  | fail msg => simp [tryBlock2] at h
  | resp st body =>
    simp only [tryBlock2] at h
    cases hp : body.parsed with
    | none =>
      simp only [hp] at h
      simp at h
    | some d =>
      simp only [hp] at h
      by_cases h2 : (d.status == some "success") = true
      · rw [if_pos h2] at h
        have h3 := (Except.ok.inj h).symm
        subst h3
        rfl
      · rw [if_neg h2] at h
        have h3 := (Except.ok.inj h).symm
        subst h3
        rfl

/-- C9: for every selection and every network outcome — transport failure, or
any status code combined with any body, including unparseable ones — both
variants' submit handlers terminate in a rendered outcome (variant 1 sets a
status class, variant 2 raises an alert): every thrown error is consumed by
the catch block, so no exception escapes the widget. -/
theorem submit_any_response_no_crash (sel : List JsFile) (net : NetResult) :
    ((submitHandler sel net).statusClass = "error" ∨
        (submitHandler sel net).statusClass = "success") ∧
      (submitHandler2 sel net).alerted = true := by
  constructor
  · unfold submitHandler
    by_cases he : sel.isEmpty = true
    · rw [if_pos he]
      left; rfl
    · rw [if_neg he]
      cases htr : tryBlock sel net with
      | ok r => exact tryBlock_ok_class htr
      | error e => left; rfl
  · unfold submitHandler2
    cases htr : tryBlock2 sel net with
    | ok r => exact tryBlock2_ok_alerted htr
    | error e => rfl

end Ledger
